import Mathlib

/-!
Verification development for the ERP Academico facade (academicoErpRestInterface.py)
and its mock upstream (mockAcademicoApi.py).

The Python code is shallowly embedded: JSON/Python values are modelled by `PyVal`,
the mutable token cache by explicit state passing on `TokenState`, network responses
by `HttpResponse` oracles supplied as arguments, and raised exceptions by
`Except PyError`.  Time is modelled by the rationals (the code holds epoch seconds
in a float; none of the verified properties depends on rounding).
-/

set_option maxRecDepth 4000

/-- Model of a Python/JSON value as it appears in request payloads and
parsed response bodies (`None`, `bool`, `int`, `str`, `list`, `dict`).
JSON floats do not occur in any behaviour specified here and are omitted. -/
inductive PyVal where
  | none
  | bool (b : Bool)
  | int (n : Int)
  | str (s : String)
  | list (items : List PyVal)
  | dict (fields : List (String × PyVal))

namespace PyVal

/-- Python truthiness (`bool(v)`) for the modelled value types. -/
def truthy : PyVal → Bool
  | PyVal.none => false
  | PyVal.bool b => b
  | PyVal.int n => decide (n ≠ 0)
  | PyVal.str s => decide (s ≠ "")
  | PyVal.list [] => false
  | PyVal.list (_ :: _) => true
  | PyVal.dict [] => false
  | PyVal.dict (_ :: _) => true

def isNone : PyVal → Bool
  | PyVal.none => true
  | _ => false

def isDict : PyVal → Bool
  | PyVal.dict _ => true
  | _ => false

/-- First-match lookup in a field list (Python dicts have unique keys;
insertion order is preserved by the model). -/
def lookupField : List (String × PyVal) → String → Option PyVal
  | [], _ => Option.none
  | (k, v) :: rest, key => if k = key then Option.some v else lookupField rest key

/-- Python `d.get(key)`: the value, or `None` when absent. -/
def get : PyVal → String → PyVal
  | PyVal.dict fields, key => (lookupField fields key).getD PyVal.none
  | _, _ => PyVal.none

/-- Python `d.get(key, dflt)`. -/
def getD : PyVal → String → PyVal → PyVal
  | PyVal.dict fields, key, dflt => (lookupField fields key).getD dflt
  | _, _, dflt => dflt

end PyVal

/-- Python `a or b` (returns `a` when truthy, else `b`). -/
def pyOr (a b : PyVal) : PyVal := if PyVal.truthy a then a else b

mutual

/-- Python `repr` for the modelled values (used by `str` on containers). -/
def pyRepr : PyVal → String
  | PyVal.none => "None"
  | PyVal.bool b => if b then "True" else "False"
  | PyVal.int n => toString n
  | PyVal.str s => "\x27" ++ s ++ "\x27"
  | PyVal.list items => "[" ++ pyReprList items ++ "]"
  | PyVal.dict fields => "\x7b" ++ pyReprFields fields ++ "\x7d"

def pyReprList : List PyVal → String
  | [] => ""
  | [v] => pyRepr v
  | v :: rest => pyRepr v ++ ", " ++ pyReprList rest

def pyReprFields : List (String × PyVal) → String
  | [] => ""
  | [(k, v)] => "\x27" ++ k ++ "\x27: " ++ pyRepr v
  | (k, v) :: rest => "\x27" ++ k ++ "\x27: " ++ pyRepr v ++ ", " ++ pyReprFields rest

end

/-- Python `str(v)` for the modelled values. -/
def pyStr : PyVal → String
  | PyVal.str s => s
  | v => pyRepr v

/-- Python `s.strip()`: drop whitespace from both ends. -/
def pyStrip (s : String) : String :=
  String.mk (((s.data.dropWhile Char.isWhitespace).reverse.dropWhile Char.isWhitespace).reverse)

/-- Python `s.split(sep, 1)[0]` for a one-character separator: the text before
the first occurrence of the separator (the whole string when absent). -/
def pySplitHead (sep : Char) (s : String) : String :=
  String.mk (s.data.takeWhile (fun c => c ≠ sep))

/-- Value of a list of decimal digit characters. -/
def digitsVal (cs : List Char) : Nat :=
  cs.foldl (fun acc c => 10 * acc + (c.toNat - 48)) 0

/-- Python `int(s)` on a string: optional surrounding whitespace, one optional
sign, then decimal digits; `Option.none` models the raised `ValueError`. -/
def pyIntOfString (s : String) : Option Int :=
  match (pyStrip s).data with
  | '-' :: rest =>
    if rest ≠ [] ∧ rest.all Char.isDigit then Option.some (-(digitsVal rest : Int))
    else Option.none
  | '+' :: rest =>
    if rest ≠ [] ∧ rest.all Char.isDigit then Option.some (digitsVal rest : Int)
    else Option.none
  | t =>
    if t ≠ [] ∧ t.all Char.isDigit then Option.some (digitsVal t : Int)
    else Option.none

/-- Python `int(v)` on a modelled value; `Option.none` models the raised
`ValueError`/`TypeError` on a non-coercible value. -/
def pyToInt : PyVal → Option Int
  | PyVal.int n => Option.some n
  | PyVal.bool b => Option.some (if b then 1 else 0)
  | PyVal.str s => pyIntOfString s
  | _ => Option.none

/-- Python `s.isdigit()` restricted to ASCII digits (the only digits occurring
in the interfaces modelled here). -/
def pyIsDigit (s : String) : Bool := !s.data.isEmpty && s.data.all Char.isDigit

/-- Embeds `redact` (academicoErpRestInterface.py, lines 30-35).
The argument is `Optional[str]`; `if not s` covers both `None` and `""`. -/
def redact : Option String → String
  | Option.none => "***"
  | Option.some s =>
    if s = "" then "***"
    else if s.length ≤ 6 then "***REDACTED***"
    else s.take 3 ++ "...***REDACTED***"

/-- Embeds `getenv_int` (lines 24-28): `int(os.getenv(name, str(default)))`
with any conversion failure falling back to the default.  The process
environment is passed explicitly. -/
def getenv_int (env : String → Option String) (name : String) (dflt : Int) : Int :=
  (pyIntOfString ((env name).getD (toString dflt))).getD dflt

/-- Embeds `TOKEN_SAFETY_SECONDS = getenv_int("ERP_TOKEN_SAFETY_SECONDS", 60)`
(line 58). -/
def TOKEN_SAFETY_SECONDS (env : String → Option String) : Int :=
  getenv_int env "ERP_TOKEN_SAFETY_SECONDS" 60

/-- Model of a raised Python exception relevant to the embedded code paths:
`HTTPException(status_code, detail)` and an uncaught `ValueError`/`TypeError`
(which FastAPI surfaces as a 500 server failure). -/
inductive PyError where
  | httpException (status : Int) (detail : String)
  | valueError

/-- The process-wide token cache (`_access_token`, `_token_expiry_epoch`,
lines 63-65).  `_access_token = None` is `PyVal.none`; epoch seconds are
modelled by rationals. -/
structure TokenState where
  access_token : PyVal
  token_expiry_epoch : ℚ

/-- A parsed HTTP response as seen by the code: the status code and the
JSON-decoded body (`r.json()`). -/
structure HttpResponse where
  status_code : Int
  body : PyVal

/-- Embeds `_token_is_valid` (lines 67-68):
`_access_token is not None and time.time() < _token_expiry_epoch`. -/
def _token_is_valid (st : TokenState) (now : ℚ) : Bool :=
  !(PyVal.isNone st.access_token) && decide (now < st.token_expiry_epoch)

/-- Embeds `_fetch_token` (lines 70-116).  The token-endpoint response is an
explicit argument; the returned pair is (cache state after the call, result).
Every failure path leaves the cache untouched; the success path (lines 109-110)
replaces token and expiry wholesale, with
`expiry = time.time() + max(0, expires_in - TOKEN_SAFETY_SECONDS)` (line 107). -/
def _fetch_token (safety : Int) (st : TokenState) (now : ℚ) (r : HttpResponse) :
    TokenState × Except PyError PyVal :=
  if r.status_code < 200 ∨ 300 ≤ r.status_code then
    (st, Except.error (PyError.httpException 502
      ("Token request failed (" ++ toString r.status_code ++ ")")))
  else
    let token := PyVal.get r.body "access_token"
    match pyToInt (PyVal.getD r.body "expires_in" (PyVal.int 0)) with
    | Option.none => (st, Except.error PyError.valueError)
    | Option.some expires_in =>
      if PyVal.truthy token = false ∨ expires_in ≤ 0 then
        (st, Except.error (PyError.httpException 502 "Token response invalid"))
      else
        let expiry : ℚ := now + ((max 0 (expires_in - safety) : Int) : ℚ)
        ({ access_token := token, token_expiry_epoch := expiry }, Except.ok token)

/-- Embeds `get_token` (lines 118-136).  Sequential rendering of the
double-checked locking discipline: fast-path validity check, re-check
under the lock, then clear the cached value and fetch outside the lock.
The third component counts token-endpoint fetches performed by the call. -/
def get_token (safety : Int) (st : TokenState) (now : ℚ) (tokenResp : HttpResponse) :
    TokenState × Except PyError PyVal × Nat :=
  if _token_is_valid st now then (st, Except.ok st.access_token, 0)
  else
    if _token_is_valid st now then (st, Except.ok st.access_token, 0)
    else
      let st1 : TokenState := { st with access_token := PyVal.none }
      let fr := _fetch_token safety st1 now tokenResp
      (fr.1, fr.2, 1)

/-- Embeds `erp_post_json` (lines 138-172).  `post i tok` is the data-endpoint
response to the i-th POST of this call, issued with bearer token `tok`; the
token endpoint response is `tokenResp`.  The third component counts
data-endpoint POSTs.  On a 401 first response (with `retry_on_401`), the code
calls `_fetch_token` directly — bypassing the cache-validity check — and
retries exactly once with `token2 = _access_token` (lines 161-166). -/
def erp_post_json (safety : Int) (retry_on_401 : Bool) (st : TokenState) (now : ℚ)
    (tokenResp : HttpResponse) (post : Nat → PyVal → HttpResponse) :
    TokenState × Except PyError PyVal × Nat :=
  match get_token safety st now tokenResp with
  | (st1, Except.error e, _) => (st1, Except.error e, 0)
  | (st1, Except.ok token, _) =>
    let r := post 0 token
    if r.status_code = 401 ∧ retry_on_401 = true then
      match _fetch_token safety st1 now tokenResp with
      | (st2, Except.error e) => (st2, Except.error e, 1)
      | (st2, Except.ok _) =>
        let token2 := st2.access_token
        let r2 := post 1 token2
        if r2.status_code < 200 ∨ 300 ≤ r2.status_code then
          (st2, Except.error (PyError.httpException 502
            ("ERP call failed (" ++ toString r2.status_code ++ ")")), 2)
        else (st2, Except.ok r2.body, 2)
    else
      if r.status_code < 200 ∨ 300 ≤ r.status_code then
        (st1, Except.error (PyError.httpException 502
          ("ERP call failed (" ++ toString r.status_code ++ ")")), 1)
      else (st1, Except.ok r.body, 1)

/-- Embeds `iso_date_only` (lines 177-180). -/
def iso_date_only : Option String → Option String
  | Option.none => Option.none
  | Option.some s =>
    if s = "" then Option.none
    else Option.some (pySplitHead 'T' s)

/-- Embeds `normalize_alumno` (lines 182-207).  Python `s.split(sep, 1)[0]`
is the text before the first separator, i.e. the head of `String.splitOn`. -/
def normalize_alumno (item : PyVal) : PyVal :=
  let persona := pyOr (PyVal.get item "Persona") (PyVal.dict [])
  let id_alumno := pyStr (pyOr (PyVal.get item "IdIntegracion") (PyVal.str ""))
  let nombre := pyStr (pyOr (PyVal.get persona "Nombre") (PyVal.str ""))
  let a1 := pyStrip (pyStr (pyOr (PyVal.get persona "Apellido1") (PyVal.str "")))
  let a2 := pyStrip (pyStr (pyOr (PyVal.get persona "Apellido2") (PyVal.str "")))
  let apellidos := String.intercalate " " (List.filter (fun p => p ≠ "") [a1, a2])
  let email_personal := pyStr (pyOr (PyVal.get persona "Email") (PyVal.str ""))
  let id_seguridad := pyStr (pyOr (PyVal.get persona "IdSeguridad") (PyVal.str ""))
  let telefono := pyStr (pyOr (PyVal.get persona "Celular") (PyVal.str ""))
  let territorio := pyStr (pyOr (PyVal.get persona "IdRefTerritorioDomicilio") (PyVal.str ""))
  let id_pais := if territorio ≠ "" then pySplitHead '-' territorio else ""
  PyVal.dict [
    ("IdAlumno", PyVal.str id_alumno),
    ("Nombre", PyVal.str nombre),
    ("Apellidos", PyVal.str apellidos),
    ("EmailPersonal", PyVal.str email_personal),
    ("IdSeguridad", PyVal.str id_seguridad),
    ("Telefono", PyVal.str telefono),
    ("IdPais", PyVal.str id_pais)
  ]

/-- Embeds `normalize_matricula` (lines 210-242), including the defensive
isinstance checks that replace non-dict sub-records by empty dicts. -/
def normalize_matricula (m : PyVal) : PyVal :=
  let plan0 := pyOr (PyVal.get m "Plan") (PyVal.dict [])
  let estado0 := pyOr (PyVal.get m "EstadoMatricula") (PyVal.dict [])
  let alumno0 := pyOr (PyVal.get m "Alumno") (PyVal.dict [])
  let doc0 := pyOr (PyVal.get m "DocumentoIdentificacionAlumno") (PyVal.dict [])
  let plan := if PyVal.isDict plan0 then plan0 else PyVal.dict []
  let estado := if PyVal.isDict estado0 then estado0 else PyVal.dict []
  let alumno := if PyVal.isDict alumno0 then alumno0 else PyVal.dict []
  let doc := if PyVal.isDict doc0 then doc0 else PyVal.dict []
  PyVal.dict [
    ("IdIntegracionMatricula", PyVal.str (pyStr (pyOr (PyVal.get m "IdIntegracion") (PyVal.str "")))),
    ("IdPlan", PyVal.str (pyStr (pyOr (PyVal.get plan "Id") (PyVal.str "")))),
    ("cEstadoMatricula", PyVal.str (pyStr (pyOr (PyVal.get estado "Id") (PyVal.str "")))),
    ("EstadoMatriculaNombre", PyVal.str (pyStr (pyOr (PyVal.get estado "Nombre") (PyVal.str "")))),
    ("sEstadoMatricula", PyVal.str ""),
    ("IdAlumno", PyVal.str (pyStr (pyOr (PyVal.get alumno "IdIntegracion") (PyVal.str "")))),
    ("TipoDocumento", PyVal.str (pyStr (pyOr (PyVal.get doc "IdRefTipoDocumentoIdentificacionPais") (PyVal.str "")))),
    ("NumeroDocumento", PyVal.str (pyStr (pyOr (PyVal.get doc "Numero") (PyVal.str ""))))
  ]

/-- The raw status name extracted by the `aic_matriculas` loop (lines 327-328):
`estado = m.get("EstadoMatricula") or {}` then
`str(estado.get("Nombre") or "") if isinstance(estado, dict) else ""`. -/
def estadoNombre (m : PyVal) : String :=
  let estado := pyOr (PyVal.get m "EstadoMatricula") (PyVal.dict [])
  if PyVal.isDict estado then pyStr (pyOr (PyVal.get estado "Nombre") (PyVal.str ""))
  else ""

/-- Embeds the accumulation loop of `aic_matriculas` (lines 322-333):
skip non-dict rows; with `onlyActive`, skip rows whose raw status name is not
the literal "Alta"; append `normalize_matricula` of the kept rows in order. -/
def matriculas_filter_loop (onlyActive : Bool) : List PyVal → List PyVal
  | [] => []
  | m :: rest =>
    if PyVal.isDict m = false then matriculas_filter_loop onlyActive rest
    else if onlyActive && (estadoNombre m != "Alta") then matriculas_filter_loop onlyActive rest
    else normalize_matricula m :: matriculas_filter_loop onlyActive rest

/-- Embeds the handler `aic_alumnos` (lines 257-288).  The result of the
upstream call `erp_post_json("/alumnos/search-list", ...)` is an explicit
argument (`Except.error` when that call raised).  The handler result is
`Except.ok (status, body)` for a response, `Except.error` for a raised
exception. -/
def aic_alumnos (idAlumno : String) (itemsPerPage : Int) (upstream : Except PyError PyVal) :
    Except PyError (Int × PyVal) :=
  let _ := itemsPerPage
  let id_str := pyStrip idAlumno
  if pyIsDigit id_str = false then
    Except.error (PyError.httpException 400 "idAlumno must be a numeric string")
  else
    match upstream with
    | Except.error e => Except.error e
    | Except.ok data =>
      match data with
      | PyVal.list [] => Except.ok (404, PyVal.dict [("detail", PyVal.str "Alumno not found")])
      | PyVal.list (item :: _) =>
        if PyVal.isDict item then Except.ok (200, normalize_alumno item)
        else Except.error (PyError.httpException 502 "Unexpected alumnos response format")
      | _ => Except.ok (404, PyVal.dict [("detail", PyVal.str "Alumno not found")])

/-- Embeds the handler `aic_matriculas` (lines 290-335).  The effective id is
`idAlumno.strip()`, falling back to the deprecated `alumnoId` when empty;
an empty effective id raises 400; building the payload applies
`int(effective_id)` (line 309), which raises an uncaught `ValueError` on a
non-numeric id.  The upstream result of `erp_post_json` is an explicit
argument; a non-list body raises 502; otherwise the filter loop runs. -/
def aic_matriculas (idAlumno : String) (alumnoId : Option String) (onlyActive : Bool)
    (itemsPerPage pageIndex : Int) (upstream : Except PyError PyVal) :
    Except PyError (Int × PyVal) :=
  let _ := itemsPerPage
  let _ := pageIndex
  let eid0 := pyStrip idAlumno
  let effective_id :=
    if eid0 = "" then
      match alumnoId with
      | Option.some a => if a = "" then eid0 else pyStrip a
      | Option.none => eid0
    else eid0
  if effective_id = "" then
    Except.error (PyError.httpException 400 "Missing required parameter: idAlumno")
  else
    match pyIntOfString effective_id with
    | Option.none => Except.error PyError.valueError
    | Option.some _ =>
      match upstream with
      | Except.error e => Except.error e
      | Except.ok (PyVal.list ms) =>
        Except.ok (200, PyVal.list (matriculas_filter_loop onlyActive ms))
      | Except.ok _ =>
        Except.error (PyError.httpException 502 "Unexpected matriculas response format")

/-- Embeds `_get_page_params` (mockAcademicoApi.py, lines 47-74):
extract `PageIndex`/`pageIndex` (default 1) and `ItemsPerPage`/`itemsPerPage`
(default 10), coerce with `int(...)` falling back to 1 resp. 10 on failure,
then force the page index to at least 1, replace items-per-page below 1 by 10,
and clamp items-per-page above 500 to 500. -/
def _get_page_params (payload : PyVal) : Int × Int :=
  let page_index_raw := PyVal.getD payload "PageIndex" (PyVal.getD payload "pageIndex" (PyVal.int 1))
  let items_raw := PyVal.getD payload "ItemsPerPage" (PyVal.getD payload "itemsPerPage" (PyVal.int 10))
  let page_index := (pyToInt page_index_raw).getD 1
  let items_per_page := (pyToInt items_raw).getD 10
  let page_index := if page_index < 1 then 1 else page_index
  let items_per_page := if items_per_page < 1 then 10 else items_per_page
  let items_per_page := if 500 < items_per_page then 500 else items_per_page
  (page_index, items_per_page)

/-- Python list slice `items[start:stop]` for the index range reached here
(`0 ≤ start`, `start ≤ stop`, as produced by `_get_page_params`). -/
def listSlice {α : Type} (items : List α) (start stop : Int) : List α :=
  (items.drop start.toNat).take (stop - start).toNat

/-- Embeds `_paginate` (mockAcademicoApi.py, lines 77-80):
`start = (page_index - 1) * items_per_page; end = start + items_per_page;
return items[start:end]`. -/
def _paginate {α : Type} (items : List α) (page_index items_per_page : Int) : List α :=
  let start := (page_index - 1) * items_per_page
  listSlice items start (start + items_per_page)

/-- Spec taxonomy test (section 7): whether a token-fetch outcome is an
UpstreamAuthError, i.e. a raised `HTTPException`, as opposed to success or a
different exception type. -/
def isUpstreamAuthError : Except PyError PyVal → Bool
  | Except.error (PyError.httpException _ _) => true
  | _ => false

/-- Spec taxonomy test (section 7): whether a handler outcome is a client-class
(4xx) error, either as a raised `HTTPException` or as a 4xx response. -/
def isClientError : Except PyError (Int × PyVal) → Bool
  | Except.error (PyError.httpException status _) => decide (400 ≤ status ∧ status < 500)
  | Except.error PyError.valueError => false
  | Except.ok (status, _) => decide (400 ≤ status ∧ status < 500)

theorem pyStr_pyOr_str (x : String) : pyStr (pyOr (PyVal.str x) (PyVal.str "")) = x := by
  by_cases h : x = "" <;> simp [pyOr, PyVal.truthy, pyStr, h]

theorem pyStr_pyOr_none : pyStr (pyOr PyVal.none (PyVal.str "")) = "" := rfl

theorem pyOr_dict_cons (f : String × PyVal) (fs : List (String × PyVal)) (d : PyVal) :
    pyOr (PyVal.dict (f :: fs)) d = PyVal.dict (f :: fs) := rfl

/-- C9 counterexample: not all secrets of length at most 6 redact to the same
fixed literal — the empty secret redacts to "***" while a six-character secret
redacts to "***REDACTED***". -/
theorem redact_fixed_literal_cex :
    redact (Option.some "") ≠ redact (Option.some "secret") := by decide

/-- C9 (amended): `redact` maps `None` and the empty secret to the literal
"***", any other secret of length at most 6 to the literal "***REDACTED***",
and a longer secret to its first 3 characters followed by the fixed marker
"...***REDACTED***"; no output reveals more than the first 3 characters. -/
theorem redact_cases (s : String) :
    redact Option.none = "***"
    ∧ (s = "" → redact (Option.some s) = "***")
    ∧ (s ≠ "" → s.length ≤ 6 → redact (Option.some s) = "***REDACTED***")
    ∧ (6 < s.length → redact (Option.some s) = s.take 3 ++ "...***REDACTED***") := by
  refine ⟨rfl, ?_, ?_, ?_⟩
  · intro h; subst h; rfl
  · intro h1 h2
    simp only [redact]
    rw [if_neg h1, if_pos h2]
  · intro h
    have h1 : s ≠ "" := by
      intro e; rw [e] at h; exact absurd h (by decide)
    simp only [redact]
    rw [if_neg h1, if_neg (by omega)]

/-- C9 witness: concrete evaluations through `redact_cases`. -/
theorem redact_cases_witness :
    redact (Option.some "hunter2") = "hun...***REDACTED***"
    ∧ redact (Option.some "secret") = "***REDACTED***" :=
  ⟨((redact_cases "hunter2").2.2.2 (by decide)).trans (by decide),
   (redact_cases "secret").2.2.1 (by decide) (by decide)⟩

/-- C8 (code bug): a non-empty, non-numeric idAlumno reaches
`int(effective_id)` in the payload construction of `aic_matriculas` and raises
an uncaught `ValueError` — a server failure — instead of being surfaced as a
client-class validation error. -/
theorem aic_matriculas_nonnumeric_valueerror :
    aic_matriculas "abc" Option.none true 50 1 (Except.ok (PyVal.list []))
      = Except.error PyError.valueError
    ∧ isClientError (aic_matriculas "abc" Option.none true 50 1 (Except.ok (PyVal.list [])))
      = false := ⟨rfl, rfl⟩

/-- C10: the mock pagination parameters are total and clamped — the page index
is coerced to an integer (non-coercible values fall back to 1) and forced to at
least 1; items-per-page is coerced (non-coercible values fall back to 10), with
values below 1 replaced by the default 10 and values above 500 clamped to 500;
`_paginate` returns the slice `items[(pageIndex-1)*itemsPerPage :
pageIndex*itemsPerPage]`, and a page past the end of the list yields `[]`. -/
theorem mock_pagination_clamping (payload : PyVal) {α : Type} (items : List α) (p ipp k : Int) :
    1 ≤ (_get_page_params payload).1
    ∧ 1 ≤ (_get_page_params payload).2
    ∧ (_get_page_params payload).2 ≤ 500
    ∧ (pyToInt (PyVal.getD payload "PageIndex" (PyVal.getD payload "pageIndex" (PyVal.int 1)))
        = Option.none → (_get_page_params payload).1 = 1)
    ∧ (pyToInt (PyVal.getD payload "PageIndex" (PyVal.getD payload "pageIndex" (PyVal.int 1)))
        = Option.some k → (_get_page_params payload).1 = if k < 1 then 1 else k)
    ∧ (pyToInt (PyVal.getD payload "ItemsPerPage" (PyVal.getD payload "itemsPerPage" (PyVal.int 10)))
        = Option.none → (_get_page_params payload).2 = 10)
    ∧ (pyToInt (PyVal.getD payload "ItemsPerPage" (PyVal.getD payload "itemsPerPage" (PyVal.int 10)))
        = Option.some k → (_get_page_params payload).2
            = if k < 1 then 10 else if 500 < k then 500 else k)
    ∧ _paginate items p ipp = listSlice items ((p - 1) * ipp) (p * ipp)
    ∧ ((items.length : Int) ≤ (p - 1) * ipp → _paginate items p ipp = []) := by
  refine ⟨?_, ?_, ?_, ?_, ?_, ?_, ?_, ?_, ?_⟩
  · simp only [_get_page_params]
    split_ifs <;> omega
  · simp only [_get_page_params]
    split_ifs <;> omega
  · simp only [_get_page_params]
    split_ifs <;> omega
  · intro h
    simp only [_get_page_params, h, Option.getD]
    norm_num
  · intro h
    simp only [_get_page_params, h, Option.getD]
  · intro h
    simp only [_get_page_params, h, Option.getD]
    norm_num
  · intro h
    simp only [_get_page_params, h, Option.getD]
    split_ifs <;> omega
  · simp only [_paginate]
    rw [show (p - 1) * ipp + ipp = p * ipp by ring]
  · intro h
    simp only [_paginate, listSlice]
    rw [List.drop_eq_nil_of_le (by omega), List.take_nil]

/-- C10 witness: concrete evaluations through `mock_pagination_clamping`. -/
theorem mock_pagination_clamping_witness :
    (_get_page_params (PyVal.dict [("pageIndex", PyVal.str "x"),
        ("ItemsPerPage", PyVal.int 9999)])).1 = 1
    ∧ (_get_page_params (PyVal.dict [("pageIndex", PyVal.str "x"),
        ("ItemsPerPage", PyVal.int 9999)])).2 = 500
    ∧ _paginate ([10, 20, 30] : List Int) 5 2 = [] := by
  refine ⟨?_, ?_, ?_⟩
  · exact (mock_pagination_clamping (PyVal.dict [("pageIndex", PyVal.str "x"),
      ("ItemsPerPage", PyVal.int 9999)]) ([] : List Int) 1 1 1).2.2.2.1 (by decide)
  · exact ((mock_pagination_clamping (PyVal.dict [("pageIndex", PyVal.str "x"),
      ("ItemsPerPage", PyVal.int 9999)]) ([] : List Int) 1 1 9999).2.2.2.2.2.2.1
        (by decide)).trans (by norm_num)
  · exact (mock_pagination_clamping (PyVal.dict []) ([10, 20, 30] : List Int) 5 2 1).2.2.2.2.2.2.2.2
      (by decide)

/-- C6: the student normalizer joins the two stripped family-name parts with a
single space, skipping empty parts, and takes the country code as the text
before the first hyphen of the composite territory code — the empty string when
the territory field is absent; on the claimed concrete input it yields
IdAlumno "988224", Nombre "Ana", Apellidos "Pérez" (no trailing space) and
IdPais "EC". -/
theorem normalize_alumno_fields (idv n a1 a2 t : String) :
    normalize_alumno (PyVal.dict [("IdIntegracion", PyVal.str idv),
        ("Persona", PyVal.dict [("Nombre", PyVal.str n), ("Apellido1", PyVal.str a1),
          ("Apellido2", PyVal.str a2), ("IdRefTerritorioDomicilio", PyVal.str t)])])
      = PyVal.dict [
        ("IdAlumno", PyVal.str idv),
        ("Nombre", PyVal.str n),
        ("Apellidos", PyVal.str (String.intercalate " "
          (List.filter (fun p => p ≠ "") [pyStrip a1, pyStrip a2]))),
        ("EmailPersonal", PyVal.str ""),
        ("IdSeguridad", PyVal.str ""),
        ("Telefono", PyVal.str ""),
        ("IdPais", PyVal.str (if t ≠ "" then pySplitHead '-' t else ""))]
    ∧ normalize_alumno (PyVal.dict [("IdIntegracion", PyVal.str idv),
        ("Persona", PyVal.dict [("Nombre", PyVal.str n), ("Apellido1", PyVal.str a1),
          ("Apellido2", PyVal.str a2)])])
      = PyVal.dict [
        ("IdAlumno", PyVal.str idv),
        ("Nombre", PyVal.str n),
        ("Apellidos", PyVal.str (String.intercalate " "
          (List.filter (fun p => p ≠ "") [pyStrip a1, pyStrip a2]))),
        ("EmailPersonal", PyVal.str ""),
        ("IdSeguridad", PyVal.str ""),
        ("Telefono", PyVal.str ""),
        ("IdPais", PyVal.str "")]
    ∧ normalize_alumno (PyVal.dict [("IdIntegracion", PyVal.str "988224"),
        ("Persona", PyVal.dict [("Nombre", PyVal.str "Ana"), ("Apellido1", PyVal.str "Pérez"),
          ("Apellido2", PyVal.str ""), ("IdRefTerritorioDomicilio", PyVal.str "EC-101-102")])])
      = PyVal.dict [
        ("IdAlumno", PyVal.str "988224"),
        ("Nombre", PyVal.str "Ana"),
        ("Apellidos", PyVal.str "Pérez"),
        ("EmailPersonal", PyVal.str ""),
        ("IdSeguridad", PyVal.str ""),
        ("Telefono", PyVal.str ""),
        ("IdPais", PyVal.str "EC")] := by
  refine ⟨?_, ?_, rfl⟩
  · simp [normalize_alumno, PyVal.get, PyVal.lookupField, pyOr_dict_cons,
      pyStr_pyOr_str, pyStr_pyOr_none]
  · simp [normalize_alumno, PyVal.get, PyVal.lookupField, pyOr_dict_cons,
      pyStr_pyOr_str, pyStr_pyOr_none]

/-- C7: the alumnos handler rejects a non-numeric idAlumno with a 400
HTTPException, answers 404 with body detail "Alumno not found" when the
upstream result list is empty, and otherwise returns the normalized form of
the first upstream record. -/
theorem aic_alumnos_responses (idv : String) (ipp : Int) (up : Except PyError PyVal)
    (item : PyVal) (rest : List PyVal) :
    (pyIsDigit (pyStrip idv) = false →
      aic_alumnos idv ipp up
        = Except.error (PyError.httpException 400 "idAlumno must be a numeric string"))
    ∧ (pyIsDigit (pyStrip idv) = true →
      aic_alumnos idv ipp (Except.ok (PyVal.list []))
        = Except.ok (404, PyVal.dict [("detail", PyVal.str "Alumno not found")]))
    ∧ (pyIsDigit (pyStrip idv) = true → PyVal.isDict item = true →
      aic_alumnos idv ipp (Except.ok (PyVal.list (item :: rest)))
        = Except.ok (200, normalize_alumno item)) := by
  refine ⟨?_, ?_, ?_⟩
  · intro h
    simp [aic_alumnos, h]
  · intro h
    simp [aic_alumnos, h]
  · intro h hd
    simp [aic_alumnos, h, hd]

/-- C7 witness: concrete evaluations through `aic_alumnos_responses`. -/
theorem aic_alumnos_responses_witness :
    aic_alumnos "abc" 10 (Except.ok (PyVal.list []))
      = Except.error (PyError.httpException 400 "idAlumno must be a numeric string")
    ∧ aic_alumnos "999999999" 10 (Except.ok (PyVal.list []))
      = Except.ok (404, PyVal.dict [("detail", PyVal.str "Alumno not found")])
    ∧ aic_alumnos "988224" 10 (Except.ok (PyVal.list
        [PyVal.dict [("IdIntegracion", PyVal.str "988224"),
          ("Persona", PyVal.dict [("Nombre", PyVal.str "Ana")])]]))
      = Except.ok (200, normalize_alumno (PyVal.dict [("IdIntegracion", PyVal.str "988224"),
          ("Persona", PyVal.dict [("Nombre", PyVal.str "Ana")])])) :=
  ⟨(aic_alumnos_responses "abc" 10 (Except.ok (PyVal.list [])) PyVal.none []).1 (by decide),
   (aic_alumnos_responses "999999999" 10 (Except.ok (PyVal.list [])) PyVal.none []).2.1 (by decide),
   (aic_alumnos_responses "988224" 10 (Except.ok (PyVal.list []))
      (PyVal.dict [("IdIntegracion", PyVal.str "988224"),
        ("Persona", PyVal.dict [("Nombre", PyVal.str "Ana")])]) []).2.2 (by decide) (by decide)⟩

/-- C5: with the active-only filter requested, the matriculas handler returns
exactly the normalized forms of the records whose raw status name equals the
literal "Alta", in the original relative order. -/
theorem aic_matriculas_only_active (idv : String) (ipp pi : Int) (nid : Int) (data : List PyVal)
    (hnum : pyIntOfString (pyStrip idv) = Option.some nid)
    (hdicts : ∀ m ∈ data, PyVal.isDict m = true) :
    aic_matriculas idv Option.none true ipp pi (Except.ok (PyVal.list data))
      = Except.ok (200, PyVal.list
          ((data.filter (fun m => estadoNombre m == "Alta")).map normalize_matricula)) := by
  have hne : pyStrip idv ≠ "" := by
    intro e
    rw [e, show pyIntOfString "" = Option.none from rfl] at hnum
    exact Option.noConfusion hnum
  have hloop : ∀ l : List PyVal, (∀ m ∈ l, PyVal.isDict m = true) →
      matriculas_filter_loop true l
        = (l.filter (fun m => estadoNombre m == "Alta")).map normalize_matricula := by
    intro l
    induction l with
    | nil => intro _; rfl
    | cons m rest ih =>
      intro h
      have hm := h m (List.mem_cons_self m rest)
      have hr := ih (fun x hx => h x (List.mem_cons_of_mem m hx))
      by_cases hA : estadoNombre m = "Alta"
      · simp [matriculas_filter_loop, hm, hA, hr]
      · simp [matriculas_filter_loop, hm, hA, hr]
  simp [aic_matriculas, hne, hnum, hloop data hdicts]

/-- C5 witness: three records with status names "Alta", "Baja", "Alta" yield
exactly the two "Alta" records, normalized, in original order. -/
theorem aic_matriculas_only_active_witness :
    aic_matriculas "988224" Option.none true 50 1 (Except.ok (PyVal.list
      [PyVal.dict [("IdIntegracion", PyVal.str "M1"),
        ("EstadoMatricula", PyVal.dict [("Id", PyVal.int 3), ("Nombre", PyVal.str "Alta")])],
       PyVal.dict [("IdIntegracion", PyVal.str "M2"),
        ("EstadoMatricula", PyVal.dict [("Id", PyVal.int 2), ("Nombre", PyVal.str "Baja")])],
       PyVal.dict [("IdIntegracion", PyVal.str "M3"),
        ("EstadoMatricula", PyVal.dict [("Id", PyVal.int 3), ("Nombre", PyVal.str "Alta")])]]))
      = Except.ok (200, PyVal.list
          [normalize_matricula (PyVal.dict [("IdIntegracion", PyVal.str "M1"),
            ("EstadoMatricula", PyVal.dict [("Id", PyVal.int 3), ("Nombre", PyVal.str "Alta")])]),
           normalize_matricula (PyVal.dict [("IdIntegracion", PyVal.str "M3"),
            ("EstadoMatricula", PyVal.dict [("Id", PyVal.int 3), ("Nombre", PyVal.str "Alta")])])]) :=
  (aic_matriculas_only_active "988224" 50 1 988224
    [PyVal.dict [("IdIntegracion", PyVal.str "M1"),
      ("EstadoMatricula", PyVal.dict [("Id", PyVal.int 3), ("Nombre", PyVal.str "Alta")])],
     PyVal.dict [("IdIntegracion", PyVal.str "M2"),
      ("EstadoMatricula", PyVal.dict [("Id", PyVal.int 2), ("Nombre", PyVal.str "Baja")])],
     PyVal.dict [("IdIntegracion", PyVal.str "M3"),
      ("EstadoMatricula", PyVal.dict [("Id", PyVal.int 3), ("Nombre", PyVal.str "Alta")])]]
    (by decide) (by decide)).trans (by rfl)

/-- C2: while the cached token is VALID (value present, current time strictly
before the expiry instant) `get_token` returns exactly the cached value,
performs zero token-endpoint fetches, and leaves the cache unchanged — so
every caller in that state receives the identical cached value. -/
theorem get_token_valid_fast_path (safety : Int) (st : TokenState) (now : ℚ)
    (tokenResp : HttpResponse) (h : _token_is_valid st now = true) :
    get_token safety st now tokenResp = (st, Except.ok st.access_token, 0) := by
  simp [get_token, h]

/-- C2 witness: concrete evaluation through `get_token_valid_fast_path`. -/
theorem get_token_valid_fast_path_witness :
    get_token 60 ⟨PyVal.str "cached-token", 1000⟩ 900 ⟨200, PyVal.none⟩
      = (⟨PyVal.str "cached-token", 1000⟩, Except.ok (PyVal.str "cached-token"), 0) :=
  get_token_valid_fast_path 60 ⟨PyVal.str "cached-token", 1000⟩ 900 ⟨200, PyVal.none⟩ (by rfl)

/-- C4: on every successful fetch the stored expiry instant equals
now + max(0, expires_in - safetyMargin), hence is never earlier than the fetch
time; the safety margin defaults to 60 seconds and is configurable through the
environment. -/
theorem token_expiry_margin (safety : Int) (st : TokenState) (now : ℚ) (r : HttpResponse)
    (e : Int) (tok : PyVal)
    (he : pyToInt (PyVal.getD r.body "expires_in" (PyVal.int 0)) = Option.some e)
    (hok : (_fetch_token safety st now r).2 = Except.ok tok) :
    (_fetch_token safety st now r).1.token_expiry_epoch = now + ((max 0 (e - safety) : Int) : ℚ)
    ∧ now ≤ (_fetch_token safety st now r).1.token_expiry_epoch
    ∧ TOKEN_SAFETY_SECONDS (fun _ => Option.none) = 60
    ∧ TOKEN_SAFETY_SECONDS (fun _ => Option.some "300") = 300 := by
  have hexp : (_fetch_token safety st now r).1.token_expiry_epoch
      = now + ((max 0 (e - safety) : Int) : ℚ) := by
    unfold _fetch_token at hok ⊢
    by_cases hs : r.status_code < 200 ∨ 300 ≤ r.status_code
    · rw [if_pos hs] at hok
      exact absurd hok (by simp)
    · rw [if_neg hs] at hok ⊢
      rw [he] at hok ⊢
      by_cases hb : PyVal.truthy (PyVal.get r.body "access_token") = false ∨ e ≤ 0
      · simp only [hb, if_pos] at hok
        exact absurd hok (by simp)
      · simp only [hb, if_neg] at hok ⊢
        rfl
  refine ⟨hexp, ?_, by decide, by decide⟩
  rw [hexp]
  have hnn : (0 : ℚ) ≤ ((max 0 (e - safety) : Int) : ℚ) := by
    exact_mod_cast le_max_left 0 (e - safety)
  linarith

/-- C4 witness: concrete evaluation through `token_expiry_margin`. -/
theorem token_expiry_margin_witness :
    (_fetch_token 60 ⟨PyVal.none, 0⟩ 0
      ⟨200, PyVal.dict [("access_token", PyVal.str "T"),
        ("expires_in", PyVal.int 3600)]⟩).1.token_expiry_epoch = 3540
    ∧ (0 : ℚ) ≤ (_fetch_token 60 ⟨PyVal.none, 0⟩ 0
      ⟨200, PyVal.dict [("access_token", PyVal.str "T"),
        ("expires_in", PyVal.int 3600)]⟩).1.token_expiry_epoch := by
  have h := token_expiry_margin 60 ⟨PyVal.none, 0⟩ 0
    ⟨200, PyVal.dict [("access_token", PyVal.str "T"), ("expires_in", PyVal.int 3600)]⟩
    3600 (PyVal.str "T") (by rfl) (by rfl)
  exact ⟨h.1.trans (by norm_num), h.2.1⟩

/-- C3 counterexample: a 2xx token response with no access token whose
expires_in field does not coerce to an integer makes `_fetch_token` fail with
an uncaught ValueError, not with an UpstreamAuthError (HTTPException), contrary
to the claimed "exactly when" characterization. -/
theorem fetch_token_auth_error_cex :
    (_fetch_token 60 ⟨PyVal.none, 0⟩ 0
        ⟨200, PyVal.dict [("expires_in", PyVal.str "soon")]⟩).2
      = Except.error PyError.valueError
    ∧ isUpstreamAuthError (_fetch_token 60 ⟨PyVal.none, 0⟩ 0
        ⟨200, PyVal.dict [("expires_in", PyVal.str "soon")]⟩).2
      = false := ⟨rfl, rfl⟩

/-- C3 (amended): `_fetch_token` fails with an UpstreamAuthError exactly on a
non-2xx response (carrying the upstream status) or on a 2xx response whose
expires_in field coerces to an integer and whose access token is missing/falsy
or whose coerced validity is non-positive ("Token response invalid"); a 2xx
response whose expires_in field does not coerce raises a ValueError instead;
no failure path writes the cache, and on success token and expiry are both
replaced and the new token is returned. -/
theorem fetch_token_cases (safety : Int) (st : TokenState) (now : ℚ) (r : HttpResponse) (e : Int) :
    ((r.status_code < 200 ∨ 300 ≤ r.status_code) →
      _fetch_token safety st now r = (st, Except.error (PyError.httpException 502
        ("Token request failed (" ++ toString r.status_code ++ ")"))))
    ∧ (¬(r.status_code < 200 ∨ 300 ≤ r.status_code) →
        pyToInt (PyVal.getD r.body "expires_in" (PyVal.int 0)) = Option.none →
      _fetch_token safety st now r = (st, Except.error PyError.valueError))
    ∧ (¬(r.status_code < 200 ∨ 300 ≤ r.status_code) →
        pyToInt (PyVal.getD r.body "expires_in" (PyVal.int 0)) = Option.some e →
        (PyVal.truthy (PyVal.get r.body "access_token") = false ∨ e ≤ 0) →
      _fetch_token safety st now r
        = (st, Except.error (PyError.httpException 502 "Token response invalid")))
    ∧ (¬(r.status_code < 200 ∨ 300 ≤ r.status_code) →
        pyToInt (PyVal.getD r.body "expires_in" (PyVal.int 0)) = Option.some e →
        PyVal.truthy (PyVal.get r.body "access_token") = true → 0 < e →
      _fetch_token safety st now r
        = ({ access_token := PyVal.get r.body "access_token",
             token_expiry_epoch := now + ((max 0 (e - safety) : Int) : ℚ) },
           Except.ok (PyVal.get r.body "access_token")))
    ∧ (∀ err, (_fetch_token safety st now r).2 = Except.error err →
        (_fetch_token safety st now r).1 = st) := by
  refine ⟨?_, ?_, ?_, ?_, ?_⟩
  · intro hs
    unfold _fetch_token
    rw [if_pos hs]
  · intro hs hn
    unfold _fetch_token
    rw [if_neg hs, hn]
  · intro hs he hbad
    unfold _fetch_token
    rw [if_neg hs, he]
    simp only [hbad, if_pos]
  · intro hs he htok hpos
    have hbad : ¬(PyVal.truthy (PyVal.get r.body "access_token") = false ∨ e ≤ 0) := by
      rintro (h1 | h2)
      · rw [htok] at h1; exact Bool.noConfusion h1
      · omega
    unfold _fetch_token
    rw [if_neg hs, he]
    simp only [hbad]
    exact if_neg not_false
  · intro err herr
    unfold _fetch_token at herr ⊢
    by_cases hs : r.status_code < 200 ∨ 300 ≤ r.status_code
    · rw [if_pos hs]
    · rw [if_neg hs] at herr ⊢
      cases hn : pyToInt (PyVal.getD r.body "expires_in" (PyVal.int 0)) with
      | none => rfl
      | some ev =>
        rw [hn] at herr
        by_cases hbad : PyVal.truthy (PyVal.get r.body "access_token") = false ∨ ev ≤ 0
        · simp only [hbad]
          rw [if_pos trivial]
        · simp only [hbad] at herr
          rw [if_neg not_false] at herr
          exact absurd herr (by simp)

/-- C3 witness: concrete evaluations through `fetch_token_cases`. -/
theorem fetch_token_cases_witness :
    _fetch_token 60 ⟨PyVal.none, 0⟩ 0 ⟨500, PyVal.none⟩
      = (⟨PyVal.none, 0⟩, Except.error (PyError.httpException 502 "Token request failed (500)"))
    ∧ _fetch_token 60 ⟨PyVal.none, 0⟩ 0
        ⟨200, PyVal.dict [("access_token", PyVal.str "T"), ("expires_in", PyVal.int 0)]⟩
      = (⟨PyVal.none, 0⟩, Except.error (PyError.httpException 502 "Token response invalid"))
    ∧ _fetch_token 60 ⟨PyVal.none, 0⟩ 0
        ⟨200, PyVal.dict [("access_token", PyVal.str "T"), ("expires_in", PyVal.int 3600)]⟩
      = (⟨PyVal.str "T", (0 : ℚ) + ((max 0 (3600 - 60) : Int) : ℚ)⟩, Except.ok (PyVal.str "T")) :=
  ⟨((fetch_token_cases 60 ⟨PyVal.none, 0⟩ 0 ⟨500, PyVal.none⟩ 0).1 (by decide)).trans (by rfl),
   (fetch_token_cases 60 ⟨PyVal.none, 0⟩ 0
      ⟨200, PyVal.dict [("access_token", PyVal.str "T"), ("expires_in", PyVal.int 0)]⟩ 0).2.2.1
        (by decide) (by rfl) (by decide),
   (fetch_token_cases 60 ⟨PyVal.none, 0⟩ 0
      ⟨200, PyVal.dict [("access_token", PyVal.str "T"), ("expires_in", PyVal.int 3600)]⟩ 3600).2.2.2.1
        (by decide) (by rfl) (by rfl) (by decide)⟩

/-- C1: when `get_token` has produced a token and the first data POST answers
401, `erp_post_json` performs the one unconditional direct `_fetch_token`
(no cache-validity check guards it) and retries exactly once with the newly
cached token; a 2xx second response means exactly 2 data-endpoint calls and
the second parsed body is returned; a second 401 means exactly 2 data-endpoint
calls and an HTTPException 502 whose detail carries status 401, with no
further retries. -/
theorem erp_post_json_retry_protocol (safety : Int) (st : TokenState) (now : ℚ)
    (tokenResp : HttpResponse) (post : Nat → PyVal → HttpResponse)
    (st1 st2 : TokenState) (tok newTok : PyVal) (k : Nat)
    (hget : get_token safety st now tokenResp = (st1, Except.ok tok, k))
    (h401 : (post 0 tok).status_code = 401)
    (hfetch : _fetch_token safety st1 now tokenResp = (st2, Except.ok newTok)) :
    st2.access_token = newTok
    ∧ (200 ≤ (post 1 st2.access_token).status_code →
        (post 1 st2.access_token).status_code < 300 →
        erp_post_json safety true st now tokenResp post
          = (st2, Except.ok (post 1 st2.access_token).body, 2))
    ∧ ((post 1 st2.access_token).status_code = 401 →
        erp_post_json safety true st now tokenResp post
          = (st2, Except.error (PyError.httpException 502 "ERP call failed (401)"), 2)) := by
  have haccess : st2.access_token = newTok := by
    unfold _fetch_token at hfetch
    by_cases hs : tokenResp.status_code < 200 ∨ 300 ≤ tokenResp.status_code
    · rw [if_pos hs] at hfetch
      simp only [Prod.mk.injEq] at hfetch
      exact absurd hfetch.2 (by simp)
    · rw [if_neg hs] at hfetch
      cases hn : pyToInt (PyVal.getD tokenResp.body "expires_in" (PyVal.int 0)) with
      | none =>
        rw [hn] at hfetch
        simp only [Prod.mk.injEq] at hfetch
        exact absurd hfetch.2 (by simp)
      | some ev =>
        rw [hn] at hfetch
        by_cases hbad : PyVal.truthy (PyVal.get tokenResp.body "access_token") = false ∨ ev ≤ 0
        · simp only [hbad] at hfetch
          rw [if_pos trivial] at hfetch
          simp only [Prod.mk.injEq] at hfetch
          exact absurd hfetch.2 (by simp)
        · simp only [hbad] at hfetch
          rw [if_neg not_false] at hfetch
          simp only [Prod.mk.injEq, Except.ok.injEq] at hfetch
          rw [← hfetch.1, hfetch.2]
  refine ⟨haccess, ?_, ?_⟩
  · intro hlo hhi
    unfold erp_post_json
    rw [hget]
    simp only [h401, hfetch]
    rw [if_pos (by norm_num), if_neg (by omega)]
  · intro h401b
    unfold erp_post_json
    rw [hget]
    simp only [h401, hfetch]
    rw [if_pos (by norm_num), if_pos (by omega)]
    rw [h401b]
    rfl

/-- C1 witness: concrete evaluations through `erp_post_json_retry_protocol`,
with a still-valid cached token (the refetch really is unconditional): a
401-then-200 exchange returns the second body after exactly 2 data calls, and
a 401-then-401 exchange fails with the 502 HTTPException carrying 401 after
exactly 2 data calls. -/
theorem erp_post_json_retry_protocol_witness :
    erp_post_json 60 true ⟨PyVal.str "stale", 1000⟩ 0
      ⟨200, PyVal.dict [("access_token", PyVal.str "fresh"), ("expires_in", PyVal.int 3600)]⟩
      (fun i _ => if i = 0 then ⟨401, PyVal.none⟩ else ⟨200, PyVal.str "payload"⟩)
      = (⟨PyVal.str "fresh", (0 : ℚ) + ((max 0 (3600 - 60) : Int) : ℚ)⟩,
         Except.ok (PyVal.str "payload"), 2)
    ∧ erp_post_json 60 true ⟨PyVal.str "stale", 1000⟩ 0
      ⟨200, PyVal.dict [("access_token", PyVal.str "fresh"), ("expires_in", PyVal.int 3600)]⟩
      (fun _ _ => ⟨401, PyVal.none⟩)
      = (⟨PyVal.str "fresh", (0 : ℚ) + ((max 0 (3600 - 60) : Int) : ℚ)⟩,
         Except.error (PyError.httpException 502 "ERP call failed (401)"), 2) :=
  ⟨((erp_post_json_retry_protocol 60 ⟨PyVal.str "stale", 1000⟩ 0
      ⟨200, PyVal.dict [("access_token", PyVal.str "fresh"), ("expires_in", PyVal.int 3600)]⟩
      (fun i _ => if i = 0 then ⟨401, PyVal.none⟩ else ⟨200, PyVal.str "payload"⟩)
      ⟨PyVal.str "stale", 1000⟩
      ⟨PyVal.str "fresh", (0 : ℚ) + ((max 0 (3600 - 60) : Int) : ℚ)⟩
      (PyVal.str "stale") (PyVal.str "fresh") 0
      (by rfl) (by rfl) (by rfl)).2.1 (by norm_num) (by norm_num)).trans (by rfl),
   (erp_post_json_retry_protocol 60 ⟨PyVal.str "stale", 1000⟩ 0
      ⟨200, PyVal.dict [("access_token", PyVal.str "fresh"), ("expires_in", PyVal.int 3600)]⟩
      (fun _ _ => ⟨401, PyVal.none⟩)
      ⟨PyVal.str "stale", 1000⟩
      ⟨PyVal.str "fresh", (0 : ℚ) + ((max 0 (3600 - 60) : Int) : ℚ)⟩
      (PyVal.str "stale") (PyVal.str "fresh") 0
      (by rfl) (by rfl) (by rfl)).2.2 (by rfl)⟩
